import Mathlib

/-
Shallow embedding of `src/bot.py`, a small discord.py chat bot.

Modelling choices:
- Python `float` values are modelled as exact rationals, represented by the
  unnormalized fraction type `PyFloat` (numerator, positive denominator).
  Every token the bot's converters accept is a finite decimal, which a
  rational represents exactly; Python's binary rounding is not modelled.
- The external library (gateway, event dispatch, sending) is an external
  collaborator: an incoming message is a `Message` record, and a handler's
  sends are collected in order into a `List Reply`.
- discord.py's decorator-based command registration is modelled as the static
  registry `commands`, a list of `Command` descriptors in source order, as
  the spec's design notes prescribe.
- `int(...)` / `float(...)` conversion is modelled for ASCII decimal tokens
  (optional sign, digits, one optional decimal point); exotic forms such as
  underscores, exponents, `inf`/`nan` or non-ASCII digits are out of scope.
-/

namespace Bot

/- Python float modelled as an exact fraction; `den` is kept positive by all
   constructions below. -/
structure PyFloat where
  num : Int
  den : Int
deriving DecidableEq

def PyFloat.ofInt (n : Int) : PyFloat := ⟨n, 1⟩

def PyFloat.neg (q : PyFloat) : PyFloat := ⟨-q.num, q.den⟩

/- Python `==` on numbers: value equality of fractions. -/
def PyFloat.beq (a b : PyFloat) : Bool := a.num * b.den == b.num * a.den

/- Python `/` on floats (exact in this model); sign is normalized into the
   numerator so the denominator stays positive. -/
def PyFloat.div (a b : PyFloat) : PyFloat :=
  let n := a.num * b.den
  let d := a.den * b.num
  if d < 0 then ⟨-n, -d⟩ else ⟨n, d⟩

def PyFloat.mulNat (q : PyFloat) (k : Nat) : PyFloat := ⟨q.num * (k : Int), q.den⟩

/- Python `round` and the rounding used by `:.2f`: round half to even. -/
def rndHalfEven (q : PyFloat) : Int :=
  let f := q.num.fdiv q.den
  let r := q.num - f * q.den
  if 2 * r < q.den then f
  else if q.den < 2 * r then f + 1
  else if f % 2 = 0 then f else f + 1

/- Decimal digits of a proper fraction n/d (0 ≤ n < d), fuel-bounded. -/
def fracDigits : Nat → Nat → Nat → List Char
  | 0, _, _ => []
  | fuel + 1, n, d =>
    if n = 0 then []
    else Char.ofNat (48 + n * 10 / d) :: fracDigits fuel (n * 10 % d) d

/- Python `str(float)` on a finite decimal value: sign, integer part, a dot,
   and the fractional digits (at least one, `0` if the value is integral). -/
def fmtFloat (q : PyFloat) : String :=
  let sgn := if q.num < 0 then "-" else ""
  let na := q.num.natAbs
  let da := q.den.natAbs
  let ds := fracDigits 400 (na % da) da
  sgn ++ toString (na / da) ++ "." ++ (if ds = [] then "0" else String.mk ds)

/- Python `f"{x:.2f}"`: round to 2 decimal places, always two digits after
   the point. -/
def fmt2f (q : PyFloat) : String :=
  let m := rndHalfEven (PyFloat.mulNat q 100)
  let sgn := if m < 0 then "-" else ""
  let a := m.natAbs
  sgn ++ toString (a / 100) ++ "." ++
    (if a % 100 < 10 then "0" ++ toString (a % 100) else toString (a % 100))

def digitsToNat (cs : List Char) : Nat :=
  cs.foldl (fun n c => n * 10 + (c.toNat - 48)) 0

/- Python `int(token)` on an ASCII decimal token. -/
def parseUInt (cs : List Char) : Option Int :=
  if cs ≠ [] ∧ cs.all Char.isDigit then some ((digitsToNat cs : Nat) : Int) else none

def parseInt (s : String) : Option Int :=
  match s.toList with
  | '-' :: cs => (parseUInt cs).map Int.neg
  | '+' :: cs => parseUInt cs
  | cs => parseUInt cs

/- Split a char list at the first dot, keeping the remainder. -/
def splitDot : List Char → List Char × Option (List Char)
  | [] => ([], none)
  | c :: cs =>
    if c = '.' then ([], some cs)
    else
      let r := splitDot cs
      (c :: r.1, r.2)

/- Python `float(token)` on an unsigned ASCII decimal token: digits with at
   most one dot and at least one digit overall. -/
def parseUFloat (cs : List Char) : Option PyFloat :=
  let ip := (splitDot cs).1
  match (splitDot cs).2 with
  | none =>
    if cs ≠ [] ∧ cs.all Char.isDigit then some ⟨((digitsToNat cs : Nat) : Int), 1⟩ else none
  | some fp =>
    if (ip ≠ [] ∨ fp ≠ []) ∧ ip.all Char.isDigit ∧ fp.all Char.isDigit then
      some ⟨((digitsToNat ip * 10 ^ fp.length + digitsToNat fp : Nat) : Int),
            ((10 ^ fp.length : Nat) : Int)⟩
    else none

def parseFloat (s : String) : Option PyFloat :=
  match s.toList with
  | '-' :: cs => (parseUFloat cs).map PyFloat.neg
  | '+' :: cs => parseUFloat cs
  | cs => parseUFloat cs

/- Whitespace tokenization of the text after the command marker. -/
def wordsAux : List Char → List Char → List String
  | [], acc => if acc = [] then [] else [String.mk acc.reverse]
  | c :: cs, acc =>
    if c = ' ' then
      if acc = [] then wordsAux cs []
      else String.mk acc.reverse :: wordsAux cs []
    else wordsAux cs (c :: acc)

def words (cs : List Char) : List String := wordsAux cs []

/- Data model: an incoming message as delivered by the gateway. -/
structure Message where
  authorId : Nat
  channelId : Nat
  content : String
deriving DecidableEq

inductive Color
  | blue
  | green
deriving DecidableEq

structure EmbedField where
  name : String
  value : String
  inline : Bool
deriving DecidableEq

structure Embed where
  title : String
  description : String
  color : Color
  thumbnail : Option String
  fields : List EmbedField
deriving DecidableEq

/- Outgoing reply payloads (`ctx.send` / `message.channel.send`). -/
inductive Reply
  | plainText (text : String)
  | embed (e : Embed)
deriving DecidableEq

structure Date where
  year : Nat
  month : Nat
  day : Nat
deriving DecidableEq

/- Read-only guild metadata snapshot supplied by the external collaborator. -/
structure Guild where
  name : String
  gid : Nat
  ownerMention : String
  memberCount : Nat
  createdAt : Date
  icon : Option String
deriving DecidableEq

/- The bot handle: own identity plus collaborator-reported statistics and the
   guild snapshot of the invoking context. -/
structure BotState where
  botUserId : Nat
  guildCount : Nat
  latency : PyFloat
  guild : Guild

inductive ParamTy
  | str
  | int
  | float

/- Binding errors raised by argument conversion, plus the catch-all `other`
   for every further discord.py error kind an error handler may receive. -/
inductive CommandError
  | missingRequiredArgument (param : String)
  | badArgument (param : String)
  | other (desc : String)
deriving DecidableEq

structure Param where
  name : String
  ty : ParamTy

inductive Value
  | vStr (s : String)
  | vInt (n : Int)
  | vFloat (q : PyFloat)
deriving DecidableEq

/- Convert one token to one declared parameter's type. -/
def convertArg (ty : ParamTy) (pname : String) (tok : String) : Except CommandError Value :=
  match ty with
  | ParamTy.str => Except.ok (Value.vStr tok)
  | ParamTy.int =>
    match parseInt tok with
    | some n => Except.ok (Value.vInt n)
    | none => Except.error (CommandError.badArgument pname)
  | ParamTy.float =>
    match parseFloat tok with
    | some q => Except.ok (Value.vFloat q)
    | none => Except.error (CommandError.badArgument pname)

/- Bind tokens to declared parameters in order; extra tokens are ignored,
   missing tokens raise MissingRequiredArgument for the first absent one. -/
def bindArgs : List Param → List String → Except CommandError (List Value)
  | [], _ => Except.ok []
  | p :: _, [] => Except.error (CommandError.missingRequiredArgument p.name)
  | p :: ps, t :: ts =>
    match convertArg p.ty p.name t with
    | Except.error e => Except.error e
    | Except.ok v =>
      match bindArgs ps ts with
      | Except.error e => Except.error e
      | Except.ok vs => Except.ok (v :: vs)

def padZeros (w : Nat) (n : Nat) : String :=
  let s := toString n
  String.mk (List.replicate (w - s.length) '0') ++ s

/- Python `created_at.strftime("%Y-%m-%d")`. -/
def strftimeYMD (d : Date) : String :=
  padZeros 4 d.year ++ "-" ++ padZeros 2 d.month ++ "-" ++ padZeros 2 d.day

/- Command handlers, one per `@bot.command` in source order. -/
def ping (_st : BotState) (_vs : List Value) : List Reply :=
  [Reply.plainText "Pong!"]

def info (st : BotState) (_vs : List Value) : List Reply :=
  [Reply.embed {
    title := "Bot Information"
    description := "A simple Discord bot created with discord.py"
    color := Color.blue
    thumbnail := none
    fields := [
      ⟨"Servers", toString st.guildCount, true⟩,
      ⟨"Latency", toString (rndHalfEven (PyFloat.mulNat st.latency 1000)) ++ "ms", true⟩] }]

def greet (_st : BotState) (vs : List Value) : List Reply :=
  match vs with
  | [Value.vStr name] => [Reply.plainText ("Hello, " ++ name ++ "! 👋")]
  | _ => []

def add (_st : BotState) (vs : List Value) : List Reply :=
  match vs with
  | [Value.vInt num1, Value.vInt num2] =>
    [Reply.plainText (toString num1 ++ " + " ++ toString num2 ++ " = "
      ++ toString (num1 + num2))]
  | _ => []

def divide (_st : BotState) (vs : List Value) : List Reply :=
  match vs with
  | [Value.vFloat num1, Value.vFloat num2] =>
    if PyFloat.beq num2 (PyFloat.ofInt 0) then
      [Reply.plainText "Error: Cannot divide by zero!"]
    else
      [Reply.plainText (fmtFloat num1 ++ " ÷ " ++ fmtFloat num2 ++ " = "
        ++ fmt2f (PyFloat.div num1 num2))]
  | _ => []

/- The `@divide.error` handler: isinstance chain with no else branch. -/
def divide_error (e : CommandError) : List Reply :=
  match e with
  | CommandError.missingRequiredArgument _ =>
    [Reply.plainText "Please provide two numbers: !divide <num1> <num2>"]
  | CommandError.badArgument _ =>
    [Reply.plainText "Please provide valid numbers!"]
  | CommandError.other _ => []

def serverinfo (st : BotState) (_vs : List Value) : List Reply :=
  let guild := st.guild
  [Reply.embed {
    title := guild.name
    description := "Server information for " ++ guild.name
    color := Color.green
    thumbnail := guild.icon
    fields := [
      ⟨"Server ID", toString guild.gid, true⟩,
      ⟨"Owner", guild.ownerMention, true⟩,
      ⟨"Members", toString guild.memberCount, true⟩,
      ⟨"Created At", strftimeYMD guild.createdAt, true⟩] }]

/- A registered command: name, declared parameters, handler, and the optional
   per-command error handler. -/
structure Command where
  name : String
  params : List Param
  handler : BotState → List Value → List Reply
  onError : Option (CommandError → List Reply)

def pingCmd : Command := ⟨"ping", [], ping, none⟩

def infoCmd : Command := ⟨"info", [], info, none⟩

def greetCmd : Command := ⟨"greet", [⟨"name", ParamTy.str⟩], greet, none⟩

def addCmd : Command :=
  ⟨"add", [⟨"num1", ParamTy.int⟩, ⟨"num2", ParamTy.int⟩], add, none⟩

def divideCmd : Command :=
  ⟨"divide", [⟨"num1", ParamTy.float⟩, ⟨"num2", ParamTy.float⟩], divide, some divide_error⟩

def serverinfoCmd : Command := ⟨"serverinfo", [], serverinfo, none⟩

/- The command registry built by the `@bot.command` decorators, source order. -/
def commands : List Command :=
  [pingCmd, infoCmd, greetCmd, addCmd, divideCmd, serverinfoCmd]

/- Dispatch one named command on already-split argument tokens: registry
   lookup (case-sensitive), binding, handler, per-command error handler. -/
def invokeCmd (st : BotState) (c : Command) (args : List String) : List Reply :=
  match bindArgs c.params args with
  | Except.ok vs => c.handler st vs
  | Except.error e =>
    match c.onError with
    | some h => h e
    | none => []

def invokeNamed (st : BotState) (name : String) (args : List String) : List Reply :=
  match commands.find? (fun c => c.name == name) with
  | none => []
  | some c => invokeCmd st c args

def invokeTokens (st : BotState) (toks : List String) : List Reply :=
  match toks with
  | [] => []
  | name :: args => invokeNamed st name args

/- `bot.process_commands(message)`: only texts starting with the prefix `!`
   are command invocations; the remainder is tokenized on spaces. -/
def process_commands (st : BotState) (msg : Message) : List Reply :=
  match msg.content.toList with
  | '!' :: rest => invokeTokens st (words rest)
  | _ => []

/- The `on_message` event handler: self-message guard, `hello` keyword reply,
   then command processing. -/
def on_message (st : BotState) (msg : Message) : List Reply :=
  if msg.authorId = st.botUserId then []
  else
    (if msg.content = "hello" then [Reply.plainText "Hello! 👋"] else [])
      ++ process_commands st msg

/- Outcome of the `__main__` block, as a function of `os.getenv` result. -/
inductive StartupOutcome
  | diagnostics (lines : List String)
  | connect (token : String)
deriving DecidableEq

def mainStartup : Option String → StartupOutcome
  | none => StartupOutcome.diagnostics
      ["Error: DISCORD_TOKEN not found in environment variables.",
       "Please create a .env file with your bot token."]
  | some t => StartupOutcome.connect t

/- Concrete sample state used by the witnesses. -/
def sampleGuild : Guild :=
  ⟨"Lean Server", 42, "<@7>", 19, ⟨2020, 5, 7⟩, some "https://cdn.example/icon.png"⟩

def st0 : BotState := ⟨99, 3, ⟨1, 20⟩, sampleGuild⟩

def mkMsg (a : Nat) (c : String) : Message := ⟨a, 1, c⟩

/- Registry lookup facts shared by the proofs below. -/
theorem find_add : commands.find? (fun c => c.name == "add") = some addCmd := rfl

theorem find_divide : commands.find? (fun c => c.name == "divide") = some divideCmd := rfl

theorem find_serverinfo :
    commands.find? (fun c => c.name == "serverinfo") = some serverinfoCmd := rfl

/-- C1: for every pair of integer argument tokens bound to `a` and `b`, the
`add` command replies with exactly `{a} + {b} = {a+b}` with the exact integer
sum; a non-integer first token raises a `BadArgument` binding error naming
`num1`, and since `add` has no custom error handler no reply is sent. -/
theorem add_command_spec :
    (∀ (st : BotState) (sa sb : String) (a b : Int),
      parseInt sa = some a → parseInt sb = some b →
      invokeNamed st "add" [sa, sb] =
        [Reply.plainText (toString a ++ " + " ++ toString b ++ " = "
          ++ toString (a + b))])
    ∧ (∀ (st : BotState) (sa sb : String),
      parseInt sa = none →
      bindArgs addCmd.params [sa, sb]
          = Except.error (CommandError.badArgument "num1")
        ∧ invokeNamed st "add" [sa, sb] = []) := by
  constructor
  · intro st sa sb a b ha hb
    simp only [invokeNamed, find_add]
    simp [invokeCmd, addCmd, bindArgs, convertArg, ha, hb, add]
  · intro st sa sb h
    refine ⟨?_, ?_⟩
    · simp [addCmd, bindArgs, convertArg, h]
    · simp only [invokeNamed, find_add]
      simp [invokeCmd, addCmd, bindArgs, convertArg, h]

theorem add_command_spec_witness :
    invokeNamed st0 "add" ["2", "3"] = [Reply.plainText "2 + 3 = 5"]
    ∧ (bindArgs addCmd.params ["foo", "3"]
          = Except.error (CommandError.badArgument "num1")
        ∧ invokeNamed st0 "add" ["foo", "3"] = []) :=
  ⟨(add_command_spec.1 st0 "2" "3" 2 3 rfl rfl).trans (by decide),
   add_command_spec.2 st0 "foo" "3" rfl⟩

/-- C2: for every pair of successfully bound float arguments `a` and `b` of
the `divide` command, a zero second argument yields the fixed divide-by-zero
error text and no quotient, and otherwise the reply is
`{a} ÷ {b} = {a/b}` with the quotient formatted to 2 decimal places. -/
theorem divide_command_spec (st : BotState) (sa sb : String) (a b : PyFloat)
    (ha : parseFloat sa = some a) (hb : parseFloat sb = some b) :
    invokeNamed st "divide" [sa, sb] =
      if PyFloat.beq b (PyFloat.ofInt 0) then
        [Reply.plainText "Error: Cannot divide by zero!"]
      else
        [Reply.plainText (fmtFloat a ++ " ÷ " ++ fmtFloat b ++ " = "
          ++ fmt2f (PyFloat.div a b))] := by
  simp only [invokeNamed, find_divide]
  simp [invokeCmd, divideCmd, bindArgs, convertArg, ha, hb, divide]

theorem divide_command_spec_witness :
    invokeNamed st0 "divide" ["10", "2"] = [Reply.plainText "10.0 ÷ 2.0 = 5.00"]
    ∧ invokeNamed st0 "divide" ["10", "0"]
        = [Reply.plainText "Error: Cannot divide by zero!"] :=
  ⟨(divide_command_spec st0 "10" "2" ⟨10, 1⟩ ⟨2, 1⟩ rfl rfl).trans (by decide),
   (divide_command_spec st0 "10" "0" ⟨10, 1⟩ ⟨0, 1⟩ rfl rfl).trans (by decide)⟩

/-- C3: only the `divide` command carries a custom binding-error handler; a
missing second token (`!divide 10`) produces the usage-hint reply and a
`BadArgument` coercion failure produces the "provide valid numbers" reply. -/
theorem divide_error_handler_spec :
    (∀ c, c ∈ commands → (c.onError ≠ none ↔ c.name = "divide"))
    ∧ (∀ st : BotState, invokeNamed st "divide" ["10"]
        = [Reply.plainText "Please provide two numbers: !divide <num1> <num2>"])
    ∧ (∀ (st : BotState) (sa sb : String), parseFloat sa = none →
        invokeNamed st "divide" [sa, sb]
          = [Reply.plainText "Please provide valid numbers!"]) := by
  refine ⟨?_, fun st => rfl, ?_⟩
  · intro c hc
    simp only [commands, List.mem_cons, List.not_mem_nil, or_false] at hc
    rcases hc with rfl | rfl | rfl | rfl | rfl | rfl <;>
      simp [pingCmd, infoCmd, greetCmd, addCmd, divideCmd, serverinfoCmd]
  · intro st sa sb h
    simp only [invokeNamed, find_divide]
    simp [invokeCmd, divideCmd, bindArgs, convertArg, h, divide_error]

theorem divide_error_handler_spec_witness :
    (divideCmd.onError ≠ none ↔ divideCmd.name = "divide")
    ∧ invokeNamed st0 "divide" ["10"]
        = [Reply.plainText "Please provide two numbers: !divide <num1> <num2>"]
    ∧ invokeNamed st0 "divide" ["foo", "3"]
        = [Reply.plainText "Please provide valid numbers!"] :=
  ⟨divide_error_handler_spec.1 divideCmd (by simp [commands]),
   divide_error_handler_spec.2.1 st0,
   divide_error_handler_spec.2.2 st0 "foo" "3" rfl⟩

/-- C4: a message authored by the bot's own identity produces no reply of any
kind, regardless of its content. -/
theorem self_message_guard (st : BotState) (msg : Message)
    (h : msg.authorId = st.botUserId) : on_message st msg = [] := by
  simp [on_message, h]

theorem self_message_guard_witness : on_message st0 (mkMsg 99 "!add 2 3") = [] :=
  self_message_guard st0 (mkMsg 99 "!add 2 3") rfl

/-- C5: a non-bot message whose raw text exactly equals the keyword trigger
`hello` gets exactly one fixed plain-text greeting reply prepended, and
command processing still runs on the same message afterwards. -/
theorem hello_keyword_reply (st : BotState) (msg : Message)
    (ha : msg.authorId ≠ st.botUserId) (hc : msg.content = "hello") :
    on_message st msg = Reply.plainText "Hello! 👋" :: process_commands st msg := by
  simp [on_message, ha, hc]

theorem hello_keyword_reply_witness :
    on_message st0 (mkMsg 1 "hello")
      = Reply.plainText "Hello! 👋" :: process_commands st0 (mkMsg 1 "hello") :=
  hello_keyword_reply st0 (mkMsg 1 "hello") (by decide) rfl

/-- C6: with the token absent from the environment the program prints the two
fixed diagnostic lines and never connects, and with a token present it starts
the connection with exactly that token. -/
theorem startup_token_check :
    mainStartup none = StartupOutcome.diagnostics
        ["Error: DISCORD_TOKEN not found in environment variables.",
         "Please create a .env file with your bot token."]
    ∧ (∀ t, mainStartup (some t) = StartupOutcome.connect t) :=
  ⟨rfl, fun _ => rfl⟩

theorem startup_token_check_witness :
    mainStartup (some "token123") = StartupOutcome.connect "token123" :=
  startup_token_check.2 "token123"

/-- C7: a non-bot, non-keyword prefixed message whose command-name token is
not in the registry produces no reply at all (silent ignore). -/
theorem unknown_command_silent (st : BotState) (msg : Message) (rest : List Char)
    (name : String) (args : List String)
    (hauth : msg.authorId ≠ st.botUserId) (hk : msg.content ≠ "hello")
    (hp : msg.content.toList = '!' :: rest)
    (hw : words rest = name :: args)
    (hn : commands.find? (fun c => c.name == name) = none) :
    on_message st msg = [] := by
  have hp' : msg.content.data = '!' :: rest := hp
  simp [on_message, hauth, hk, process_commands, hp', hw, invokeTokens, invokeNamed, hn]

theorem unknown_command_silent_witness : on_message st0 (mkMsg 1 "!frobnicate") = [] :=
  unknown_command_silent st0 (mkMsg 1 "!frobnicate") "frobnicate".toList
    "frobnicate" [] (by decide) (by decide) rfl (by decide) rfl

/-- C8: the `serverinfo` command replies with a single embed whose member
field is the collaborator-reported member count, whose creation-date field is
formatted `YYYY-MM-DD` (zero-padded, as the concrete date shows), and whose
thumbnail is the guild icon URL when present and none otherwise. -/
theorem serverinfo_embed_spec (st : BotState) :
    invokeNamed st "serverinfo" [] =
      [Reply.embed {
        title := st.guild.name
        description := "Server information for " ++ st.guild.name
        color := Color.green
        thumbnail := st.guild.icon
        fields := [
          ⟨"Server ID", toString st.guild.gid, true⟩,
          ⟨"Owner", st.guild.ownerMention, true⟩,
          ⟨"Members", toString st.guild.memberCount, true⟩,
          ⟨"Created At", strftimeYMD st.guild.createdAt, true⟩] }]
    ∧ strftimeYMD ⟨2020, 5, 7⟩ = "2020-05-07" :=
  ⟨rfl, by decide⟩

theorem serverinfo_embed_spec_witness :
    invokeNamed st0 "serverinfo" [] =
      [Reply.embed {
        title := "Lean Server"
        description := "Server information for Lean Server"
        color := Color.green
        thumbnail := some "https://cdn.example/icon.png"
        fields := [
          ⟨"Server ID", "42", true⟩,
          ⟨"Owner", "<@7>", true⟩,
          ⟨"Members", "19", true⟩,
          ⟨"Created At", "2020-05-07", true⟩] }] :=
  (serverinfo_embed_spec st0).1.trans (by decide)

/-- C9: whenever the bound second float argument of `divide` has value zero —
including values coming from the tokens `-0` and `0.00` — the handler takes
the fixed-error branch, so the division is never executed on a zero divisor. -/
theorem divide_zero_guard :
    (∀ (st : BotState) (sa sb : String) (a b : PyFloat),
      parseFloat sa = some a → parseFloat sb = some b →
      PyFloat.beq b (PyFloat.ofInt 0) = true →
      invokeNamed st "divide" [sa, sb]
        = [Reply.plainText "Error: Cannot divide by zero!"])
    ∧ (∃ z, parseFloat "-0" = some z ∧ PyFloat.beq z (PyFloat.ofInt 0) = true)
    ∧ (∃ z, parseFloat "0.00" = some z ∧ PyFloat.beq z (PyFloat.ofInt 0) = true) := by
  refine ⟨?_, ⟨⟨0, 1⟩, rfl, rfl⟩, ⟨⟨0, 100⟩, rfl, rfl⟩⟩
  intro st sa sb a b ha hb h0
  simp only [invokeNamed, find_divide]
  simp [invokeCmd, divideCmd, bindArgs, convertArg, ha, hb, divide, h0]

theorem divide_zero_guard_witness :
    invokeNamed st0 "divide" ["10", "-0"]
      = [Reply.plainText "Error: Cannot divide by zero!"] :=
  divide_zero_guard.1 st0 "10" "-0" ⟨10, 1⟩ ⟨0, 1⟩ rfl rfl rfl

/-- C10: the `divide` error handler replies for exactly the two binding-error
kinds — the usage hint for `MissingRequiredArgument`, the valid-numbers text
for `BadArgument` — and sends nothing for every other error kind. -/
theorem divide_error_handler_exhaustive :
    (∀ p, divide_error (CommandError.missingRequiredArgument p)
      = [Reply.plainText "Please provide two numbers: !divide <num1> <num2>"])
    ∧ (∀ p, divide_error (CommandError.badArgument p)
      = [Reply.plainText "Please provide valid numbers!"])
    ∧ (∀ d, divide_error (CommandError.other d) = []) :=
  ⟨fun _ => rfl, fun _ => rfl, fun _ => rfl⟩

theorem divide_error_handler_exhaustive_witness :
    divide_error (CommandError.other "CommandInvokeError") = [] :=
  divide_error_handler_exhaustive.2.2 "CommandInvokeError"

end Bot
